import Mathlib

/-!
# Verification of the HomeSchool external-content cache clients

Shallow embedding of the five provider API wrapper classes in
`src/system/apis/` (CK-12, Khan Academy, NASA, OpenLibrary, WordsAPI).

Modelling conventions:
* Python JSON values are the inductive `Json` (numbers as `Int`; no claim
  involves floating-point payloads).
* The per-provider cache directory is an association list from a key type to
  `CacheFile`.  The source names cache files by an `md5` hash of a formatted
  parameter string (for example `search_{md5(f'{query}_{subject}_{grade}')}.json`);
  `md5` is modelled as an injective key constructor applied to the formatted
  string, which preserves the cache semantics used by every claim.
* File modification times and "now" are seconds since the epoch (`Nat`).
  `datetime.now() - datetime.fromtimestamp(mtime)` followed by `.days` is
  `(now - mtime) / 86400` (floor division, as in Python's `timedelta.days`
  for non-negative differences).
* A cache file whose bytes are not parseable JSON is a `CacheFile` with
  `content = none`; `json.load` on it raises, modelled as
  `Except.error PyErr.jsonDecodeError`.
* `requests.Session.get` is an oracle `Request → Fetch`; `Fetch.failure`
  covers both transport errors and non-2xx statuses (the source wraps each
  call in `try/except requests.RequestException` with `raise_for_status`).
* Python `None` returned by a client operation is `Json.null` (Python does
  not distinguish a JSON `null` payload from `None`).
* Every operation returns a `CallOut`: the result (or the Python exception
  it raises), the cache directory after the call, and the list of outbound
  HTTP requests it issued.
-/

inductive Json where
  | null
  | bool (b : Bool)
  | num (n : Int)
  | str (s : String)
  | arr (xs : List Json)
  | obj (fields : List (String × Json))

/-- Python exceptions that the embedded operations can raise. -/
inductive PyErr where
  | jsonDecodeError
  | attributeError
  | indexError
  | typeError
deriving DecidableEq

/-- Association-list lookup, modelling Python `dict` access on JSON objects. -/
def dictLookup (k : String) : List (String × Json) → Option Json
  | [] => none
  | (a, v) :: rest => if a = k then some v else dictLookup k rest

/-- `d.get(k)` on a JSON object: `none` when the key is absent or the value
is not an object. -/
def jget (j : Json) (k : String) : Option Json :=
  match j with
  | .obj fields => dictLookup k fields
  | _ => none

/-- Python `d.get(k)` (default `None`). -/
def pyGet (j : Json) (k : String) : Json :=
  (jget j k).getD .null

/-- Python `d.get(k, default)`. -/
def pyGetD (j : Json) (k : String) (d : Json) : Json :=
  (jget j k).getD d

/-- Python truthiness of a JSON value (`if word_data:` etc.). -/
def pyTruthy : Json → Bool
  | .null => false
  | .bool b => b
  | .num n => n != 0
  | .str s => s != ""
  | .arr xs => !xs.isEmpty
  | .obj fields => !fields.isEmpty

/-- The elements of a JSON array (the claims only iterate genuine lists). -/
def asArr : Json → List Json
  | .arr xs => xs
  | _ => []

/-- The underlying string of a JSON string, `""` otherwise. -/
def jStrD : Json → String
  | .str s => s
  | _ => ""

/-- An optional integer argument as the JSON value the source stores. -/
def jOptInt : Option Int → Json
  | some n => .num n
  | none => .null

/-- Query-parameter values (`requests` params dicts hold strings and ints). -/
inductive PVal where
  | str (s : String)
  | num (n : Int)

/-- An outbound HTTP request: URL and query parameters. -/
structure Request where
  url : String
  params : List (String × PVal)

/-- Outcome of one HTTP round trip.  `failure` covers transport errors and
non-2xx statuses (both surface as `requests.RequestException`). -/
inductive Fetch where
  | success (body : Json)
  | failure

/-- The network, as a deterministic oracle from requests to outcomes. -/
def Oracle := Request → Fetch

/-- One cache file: parsed content (`none` = malformed bytes) and mtime. -/
structure CacheFile where
  content : Option Json
  mtime : Nat

/-- A provider's cache directory. -/
def FS (K : Type) := List (K × CacheFile)

def fsLookup {K : Type} [DecidableEq K] : FS K → K → Option CacheFile
  | [], _ => none
  | (k, f) :: rest, key => if k = key then some f else fsLookup rest key

def fsErase {K : Type} [DecidableEq K] : FS K → K → FS K
  | [], _ => []
  | (k, f) :: rest, key => if k = key then fsErase rest key else (k, f) :: fsErase rest key

/-- Writing a cache file (`json.dump` to `open(cache_file, 'w')`). -/
def fsWrite {K : Type} [DecidableEq K] (fs : FS K) (key : K) (f : CacheFile) : FS K :=
  (key, f) :: fsErase fs key

/-- `json.load` on an opened cache file. -/
def json_load (f : CacheFile) : Except PyErr Json :=
  match f.content with
  | some j => .ok j
  | none => .error .jsonDecodeError

/-- The freshness test every operation performs:
`(datetime.now() - datetime.fromtimestamp(mtime)).days < ttlDays`. -/
def cacheValid (now mtime ttlDays : Nat) : Bool :=
  (now - mtime) / 86400 < ttlDays

/-- The shared cache-read pattern (`if cache_file.exists(): if age.days < ttl:
json.load(...)`): `none` when the file is absent or stale, otherwise the
outcome of parsing it. -/
def cache_get {K : Type} [DecidableEq K] (fs : FS K) (key : K) (now ttlDays : Nat) :
    Option (Except PyErr Json) :=
  match fsLookup fs key with
  | some f => if cacheValid now f.mtime ttlDays then some (json_load f) else none
  | none => none

/-- The shared cache-write pattern (`json.dump(data, open(cache_file, 'w'))`). -/
def cache_put {K : Type} [DecidableEq K] (fs : FS K) (key : K) (payload : Json) (now : Nat) :
    FS K :=
  fsWrite fs key ⟨some payload, now⟩

/-- Result of one embedded client operation. -/
structure CallOut (K : Type) (α : Type) where
  res : Except PyErr α
  fs : FS K
  reqs : List Request

/-- Python `f'{x}'` for an optional string (`None` prints as `"None"`). -/
def fmtOptS : Option String → String
  | some s => s
  | none => "None"

/-- Python `f'{x}'` for an optional integer. -/
def fmtOptI : Option Int → String
  | some n => toString n
  | none => "None"

/-! ## CK-12 client (`src/system/apis/ck12/ck12_api.py`) -/

inductive CKKey where
  | search (sig : String)
  | content (id : String)
deriving DecidableEq

def ck12SearchKey (query : String) (subject : Option String) (grade : Option Int) : CKKey :=
  .search (query ++ "_" ++ fmtOptS subject ++ "_" ++ fmtOptI grade)

/-- Parameter set built by `CK12API.search_content` (lines 26-34): `subject`
and `grade_level` are added only when truthy. -/
def ck12SearchParams (query : String) (subject : Option String) (grade : Option Int)
    (limit : Int) : List (String × PVal) :=
  [("q", .str query), ("limit", .num limit)]
    ++ (match subject with
        | some s => if s = "" then [] else [("subject", PVal.str s)]
        | none => [])
    ++ (match grade with
        | some g => if g = 0 then [] else [("grade_level", PVal.num g)]
        | none => [])

def ck12SearchReq (query : String) (subject : Option String) (grade : Option Int)
    (limit : Int) : Request :=
  ⟨"https://www.ck12.org/api/v1/content", ck12SearchParams query subject grade limit⟩

def ck12ContentReq (contentId : String) : Request :=
  ⟨"https://www.ck12.org/api/v1/content/" ++ contentId, []⟩

/-- `CK12API._process_content` (lines 316-334). -/
def ck12_process_content (contentList : List Json) : List Json :=
  contentList.map fun c => .obj [
    ("id", pyGet c "id"),
    ("title", pyGet c "title"),
    ("description", pyGet c "description"),
    ("type", pyGet c "type"),
    ("subject", pyGet c "subject"),
    ("grade_level", pyGet c "grade_level"),
    ("url", pyGet c "url"),
    ("embed_url", pyGet c "embed_url"),
    ("difficulty", pyGetD c "difficulty" (.str "medium"))]

/-- `CK12API.search_content` (lines 23-60): 7-day cache consulted first;
on miss fetch, cache the raw response, return the processed `content` list;
on `RequestException` return `[]`. -/
def ck12_search_content (http : Oracle) (fs : FS CKKey) (now : Nat) (query : String)
    (subject : Option String) (grade : Option Int) (limit : Int) :
    CallOut CKKey (List Json) :=
  let key := ck12SearchKey query subject grade
  let req := ck12SearchReq query subject grade limit
  match cache_get fs key now 7 with
  | some (.ok data) =>
      ⟨.ok (ck12_process_content (asArr (pyGetD data "content" (.arr [])))), fs, []⟩
  | some (.error e) => ⟨.error e, fs, []⟩
  | none =>
      match http req with
      | .success data =>
          ⟨.ok (ck12_process_content (asArr (pyGetD data "content" (.arr [])))),
           cache_put fs key data now, [req]⟩
      | .failure => ⟨.ok [], fs, [req]⟩

/-- `CK12API.get_content_details` (lines 62-89): 30-day cache; raw payload
returned; `None` on failure. -/
def ck12_get_content_details (http : Oracle) (fs : FS CKKey) (now : Nat)
    (contentId : String) : CallOut CKKey Json :=
  match cache_get fs (.content contentId) now 30 with
  | some r => ⟨r, fs, []⟩
  | none =>
      match http (ck12ContentReq contentId) with
      | .success b =>
          ⟨.ok b, cache_put fs (.content contentId) b now, [ck12ContentReq contentId]⟩
      | .failure => ⟨.ok .null, fs, [ck12ContentReq contentId]⟩

/-! ## Khan Academy client (`src/system/apis/khan_academy/khan_api.py`) -/

inductive KhanKey where
  | video (id : String)
  | search (sig : String)
deriving DecidableEq

def khanSearchKey (topic : String) (grade : Option Int) : KhanKey :=
  .search (topic ++ "_" ++ fmtOptI grade)

/-- Parameter set built by `KhanAcademyAPI.search_videos` (lines 26-32). -/
def khanVideosParams (topic : String) (grade : Option Int) (limit : Int) :
    List (String × PVal) :=
  [("query", .str topic), ("limit", .num limit)]
    ++ (match grade with
        | some g => if g = 0 then [] else [("grade_level", PVal.num g)]
        | none => [])

def khanVideosReq (topic : String) (grade : Option Int) (limit : Int) : Request :=
  ⟨"https://www.khanacademy.org/api/v1/videos", khanVideosParams topic grade limit⟩

def khanVideoReq (videoId : String) : Request :=
  ⟨"https://www.khanacademy.org/api/v1/videos/" ++ videoId, []⟩

def khanExercisesReq (subject : String) (grade : Option Int) : Request :=
  ⟨"https://www.khanacademy.org/api/v1/exercises",
   [("subject", .str subject)]
     ++ (match grade with
         | some g => if g = 0 then [] else [("grade_level", PVal.num g)]
         | none => [])⟩

def khanTopicsReq (subject : String) : Request :=
  ⟨"https://www.khanacademy.org/api/v1/subjects/" ++ subject ++ "/topics", []⟩

/-- `KhanAcademyAPI._process_videos` (lines 154-171). -/
def khan_process_videos (videos : List Json) : List Json :=
  videos.map fun v => .obj [
    ("id", pyGet v "id"),
    ("title", pyGet v "title"),
    ("description", pyGet v "description"),
    ("duration", pyGet v "duration"),
    ("thumbnail", pyGet v "thumbnail_url"),
    ("url", pyGet v "url"),
    ("subject", pyGet v "subject"),
    ("grade_level", pyGet v "grade_level")]

/-- `KhanAcademyAPI._process_exercises` (lines 173-188). -/
def khan_process_exercises (exercises : List Json) : List Json :=
  exercises.map fun e => .obj [
    ("id", pyGet e "id"),
    ("title", pyGet e "title"),
    ("description", pyGet e "description"),
    ("type", pyGet e "type"),
    ("difficulty", pyGet e "difficulty"),
    ("subject", pyGet e "subject")]

/-- `KhanAcademyAPI.search_videos` (lines 23-42): fetches FIRST (no prior
cache lookup); only on `RequestException` does it fall back to
`_get_cached_videos` (lines 200-208), which returns the raw cached payload
with no TTL check, or `[]` when no cache file exists.  The search cache file
is read here but never written by this class. -/
def khan_search_videos (http : Oracle) (fs : FS KhanKey) (now : Nat) (topic : String)
    (grade : Option Int) (limit : Int) : CallOut KhanKey Json :=
  let req := khanVideosReq topic grade limit
  match http req with
  | .success videos => ⟨.ok (.arr (khan_process_videos (asArr videos))), fs, [req]⟩
  | .failure =>
      match fsLookup fs (khanSearchKey topic grade) with
      | some f => ⟨json_load f, fs, [req]⟩
      | none => ⟨.ok (.arr []), fs, [req]⟩

/-- `KhanAcademyAPI.get_video_content` (lines 44-69): 7-day cache consulted
first; raw payload returned; `None` on fetch failure. -/
def khan_get_video_content (http : Oracle) (fs : FS KhanKey) (now : Nat)
    (videoId : String) : CallOut KhanKey Json :=
  match cache_get fs (.video videoId) now 7 with
  | some r => ⟨r, fs, []⟩
  | none =>
      match http (khanVideoReq videoId) with
      | .success b =>
          ⟨.ok b, cache_put fs (.video videoId) b now, [khanVideoReq videoId]⟩
      | .failure => ⟨.ok .null, fs, [khanVideoReq videoId]⟩

/-- `KhanAcademyAPI.get_exercises` (lines 71-86): no cache at all; `[]` on
failure.  Returns the result list and the requests issued. -/
def khan_get_exercises (http : Oracle) (subject : String) (grade : Option Int) :
    List Json × List Request :=
  match http (khanExercisesReq subject grade) with
  | .success exercises => (khan_process_exercises (asArr exercises), [khanExercisesReq subject grade])
  | .failure => ([], [khanExercisesReq subject grade])

/-- `KhanAcademyAPI._get_subject_topics` (lines 190-198): no cache; `[]` on
failure. -/
def khan_get_subject_topics (http : Oracle) (subject : String) : Json × List Request :=
  match http (khanTopicsReq subject) with
  | .success b => (b, [khanTopicsReq subject])
  | .failure => (.arr [], [khanTopicsReq subject])

/-- The `content` dict built by `KhanAcademyAPI.get_subject_content`. -/
structure KhanContent where
  videos : Json
  exercises : List Json
  topics : Json

/-- `KhanAcademyAPI.get_subject_content` (lines 115-135). -/
def khan_get_subject_content (http : Oracle) (fs : FS KhanKey) (now : Nat)
    (subject : String) (grade : Option Int) : CallOut KhanKey KhanContent :=
  let sv := khan_search_videos http fs now subject grade 20
  match sv.res with
  | .error e => ⟨.error e, sv.fs, sv.reqs⟩
  | .ok videos =>
      let ex := khan_get_exercises http subject grade
      let tp := khan_get_subject_topics http subject
      ⟨.ok ⟨videos, ex.1, tp.1⟩, sv.fs, sv.reqs ++ ex.2 ++ tp.2⟩

/-- Python list slicing `xs[:n]`; slicing a non-list raises `TypeError`. -/
def pySlice (j : Json) (n : Nat) : Except PyErr (List Json) :=
  match j with
  | .arr xs => .ok (xs.take n)
  | _ => .error .typeError

/-- `KhanAcademyAPI.create_lesson_from_khan` (lines 137-152): first 3 videos,
first 5 exercises, fixed `estimated_time` 30 and `xp_value` 15. -/
def khan_create_lesson_from_khan (http : Oracle) (fs : FS KhanKey) (now : Nat)
    (subject : String) (grade : Option Int) (topic : String) : CallOut KhanKey Json :=
  let sc := khan_get_subject_content http fs now subject grade
  match sc.res with
  | .error e => ⟨.error e, sc.fs, sc.reqs⟩
  | .ok content =>
      match pySlice content.videos 3 with
      | .error e => ⟨.error e, sc.fs, sc.reqs⟩
      | .ok vids =>
          ⟨.ok (.obj [
            ("title", .str ("Khan Academy - " ++ subject ++ " - " ++ topic)),
            ("subject", .str subject),
            ("grade_level", jOptInt grade),
            ("content_type", .str "khan_academy"),
            ("videos", .arr vids),
            ("exercises", .arr (content.exercises.take 5)),
            ("estimated_time", .num 30),
            ("xp_value", .num 15)]), sc.fs, sc.reqs⟩

/-! ## NASA client (`src/system/apis/nasa/nasa_api.py`) -/

inductive NasaKey where
  | spaceWeather
deriving DecidableEq

/-- `self.api_key = api_key or 'DEMO_KEY'` (truthiness: `None` and `""` both
fall back to the demo key). -/
def nasaEffectiveKey : Option String → String
  | some s => if s = "" then "DEMO_KEY" else s
  | none => "DEMO_KEY"

def nasaSpaceWeatherReq (apiKey : Option String) : Request :=
  ⟨"https://api.nasa.gov/DONKI/WSJ", [("api_key", .str (nasaEffectiveKey apiKey))]⟩

/-- `NASAAPI.get_space_weather` (lines 163-191).  When the cache file exists
the source evaluates `cache_age.hours` — but `datetime.timedelta` has no
attribute `hours` (only `days`, `seconds`, `microseconds`), so the cache
branch raises `AttributeError` before the file is even opened; the `try`
block starts only after this check, so the exception escapes the method. -/
def nasa_get_space_weather (http : Oracle) (apiKey : Option String) (fs : FS NasaKey)
    (now : Nat) : CallOut NasaKey Json :=
  match fsLookup fs .spaceWeather with
  | some _ => ⟨.error .attributeError, fs, []⟩
  | none =>
      match http (nasaSpaceWeatherReq apiKey) with
      | .success b =>
          ⟨.ok b, cache_put fs .spaceWeather b now, [nasaSpaceWeatherReq apiKey]⟩
      | .failure => ⟨.ok .null, fs, [nasaSpaceWeatherReq apiKey]⟩

/-! ## String helpers shared by OpenLibrary and WordsAPI -/

/-- Python `str.lower()` on one character (the repository's inputs are ASCII). -/
def lowerChar (c : Char) : Char :=
  if 65 ≤ c.toNat ∧ c.toNat ≤ 90 then Char.ofNat (c.toNat + 32) else c

/-- Python `str.lower()`. -/
def strLower (s : String) : String :=
  ⟨s.data.map lowerChar⟩

/-- Does `needle` start the list `hay`? -/
def listStarts : List Char → List Char → Bool
  | [], _ => true
  | _ :: _, [] => false
  | n :: ns, h :: hs => n = h && listStarts ns hs

/-- Is `needle` a contiguous run of `hay`? -/
def listHas (needle : List Char) : List Char → Bool
  | [] => needle.isEmpty
  | h :: hs => listStarts needle (h :: hs) || listHas needle hs

/-- Python `needle in hay` on strings. -/
def strContains (hay needle : String) : Bool :=
  listHas needle.data hay.data

/-- Python `str.upper()` on one character. -/
def upperChar (c : Char) : Char :=
  if 97 ≤ c.toNat ∧ c.toNat ≤ 122 then Char.ofNat (c.toNat - 32) else c

/-- Is the character an ASCII letter (the Python `str.title()` word test,
restricted to the repository's ASCII inputs)? -/
def isAsciiAlpha (c : Char) : Bool :=
  (65 ≤ c.toNat && c.toNat ≤ 90) || (97 ≤ c.toNat && c.toNat ≤ 122)

def titleAux : Bool → List Char → List Char
  | _, [] => []
  | prevAlpha, c :: cs =>
      (if prevAlpha then lowerChar c else upperChar c) :: titleAux (isAsciiAlpha c) cs

/-- Python `str.title()`: uppercase each letter that does not follow a
letter, lowercase the rest. -/
def strTitle (s : String) : String :=
  ⟨titleAux false s.data⟩

/-! ## OpenLibrary client (`src/system/apis/openlibrary/book_search.py`) -/

inductive OLKey where
  | search (sig : String)
  | book (id : String)
deriving DecidableEq

def olSearchReq (query : String) (limit : Int) : Request :=
  ⟨"https://openlibrary.org/search.json", [("q", .str query), ("limit", .num limit)]⟩

def olBookReq (bookId : String) : Request :=
  ⟨"https://openlibrary.org/works/" ++ bookId ++ ".json", []⟩

def olMatureKeywords : List String :=
  ["adult", "mature", "teen", "young adult"]

/-- `OpenLibraryAPI._filter_by_grade_level` (lines 262-292): `None` and `0`
grade levels pass everything through; grades `<= 3` drop books whose title or
subject list mentions a mature keyword; all other grades keep everything. -/
def ol_filter_by_grade_level (books : List Json) (grade : Option Int) : List Json :=
  match grade with
  | none => books
  | some g =>
      if g = 0 then books
      else books.filter fun b =>
        let title := strLower (jStrD (pyGetD b "title" (.str "")))
        let subjects := asArr (pyGetD b "subject" (.arr []))
        if g ≤ 3 then
          !(olMatureKeywords.any fun kw =>
            strContains title kw
              || subjects.any fun s => strContains (strLower (jStrD s)) kw)
        else true

/-- `OpenLibraryAPI.search_books` (lines 23-55): 7-day cache consulted first;
returns the grade-filtered `docs` list; `[]` on failure. -/
def ol_search_books (http : Oracle) (fs : FS OLKey) (now : Nat) (query : String)
    (limit : Int) (grade : Option Int) : CallOut OLKey (List Json) :=
  match cache_get fs (.search query) now 7 with
  | some (.ok data) =>
      ⟨.ok (ol_filter_by_grade_level (asArr (pyGetD data "docs" (.arr []))) grade), fs, []⟩
  | some (.error e) => ⟨.error e, fs, []⟩
  | none =>
      match http (olSearchReq query limit) with
      | .success data =>
          ⟨.ok (ol_filter_by_grade_level (asArr (pyGetD data "docs" (.arr []))) grade),
           cache_put fs (.search query) data now, [olSearchReq query limit]⟩
      | .failure => ⟨.ok [], fs, [olSearchReq query limit]⟩

/-- `OpenLibraryAPI.get_book_details` (lines 57-84): 30-day cache; raw
payload; `None` on failure. -/
def ol_get_book_details (http : Oracle) (fs : FS OLKey) (now : Nat) (bookId : String) :
    CallOut OLKey Json :=
  match cache_get fs (.book bookId) now 30 with
  | some r => ⟨r, fs, []⟩
  | none =>
      match http (olBookReq bookId) with
      | .success b => ⟨.ok b, cache_put fs (.book bookId) b now, [olBookReq bookId]⟩
      | .failure => ⟨.ok .null, fs, [olBookReq bookId]⟩

/-- The author expression in `create_reading_lesson` line 225:
`book.get('author_name', ['Unknown Author'])[0] if 'author_name' in book
else 'Unknown Author'` (indexing an empty or non-list value raises). -/
def olAuthorOf (book : Json) : Except PyErr String :=
  match jget book "author_name" with
  | some an =>
      match an with
      | .arr (a :: _) => .ok (jStrD a)
      | .arr [] => .error .indexError
      | _ => .error .typeError
  | none => .ok "Unknown Author"

/-- `OpenLibraryAPI.create_reading_lesson` (lines 208-230): returns `None`
when the book search comes back empty; otherwise assembles the lesson dict
with fixed `estimated_time` 45 and `xp_value` 30. -/
def ol_create_reading_lesson (http : Oracle) (fs : FS OLKey) (now : Nat)
    (bookTitle : String) (grade : Int) : CallOut OLKey Json :=
  let sb := ol_search_books http fs now bookTitle 1 none
  match sb.res with
  | .error e => ⟨.error e, sb.fs, sb.reqs⟩
  | .ok [] => ⟨.ok .null, sb.fs, sb.reqs⟩
  | .ok (book :: _) =>
      let bd := ol_get_book_details http sb.fs now (jStrD (pyGetD book "key" (.str "")))
      match bd.res with
      | .error e => ⟨.error e, bd.fs, sb.reqs ++ bd.reqs⟩
      | .ok details =>
          match olAuthorOf book with
          | .error e => ⟨.error e, bd.fs, sb.reqs ++ bd.reqs⟩
          | .ok author =>
              ⟨.ok (.obj [
                ("title", .str ("Reading: " ++ jStrD (pyGetD book "title" (.str bookTitle)))),
                ("subject", .str "reading"),
                ("grade_level", .num grade),
                ("content_type", .str "openlibrary"),
                ("book_data", book),
                ("book_details", details),
                ("text_content", .str ("Read and discuss "
                  ++ jStrD (pyGetD book "title" (.str bookTitle)) ++ " by " ++ author ++ ".")),
                ("estimated_time", .num 45),
                ("xp_value", .num 30)]), bd.fs, sb.reqs ++ bd.reqs⟩

/-! ## WordsAPI client (`src/system/apis/wordsapi/vocab_lookup.py`) -/

inductive WKey where
  | word (lw : String)
  | wordOfDay
deriving DecidableEq

/-- Cache file `word_{word.lower()}.json` (line 29). -/
def wordKey (w : String) : WKey :=
  .word (strLower w)

/-- Request to `f"{self.base_url}/words/{word}"` (line 43): note the URL uses
the word as passed, not lowercased. -/
def wordsReq (w : String) : Request :=
  ⟨"https://wordsapiv1.p.rapidapi.com/words/" ++ w, []⟩

/-- One entry of the embedded static dictionary. -/
def mkBasicDef (w defn : String) : Json :=
  .obj [("word", .str w), ("results", .arr [.obj [("definition", .str defn)]])]

/-- The literal `basic_definitions` dict of `WordsAPI._get_basic_definition`
(lines 291-302). -/
def basic_definitions : List (String × Json) :=
  [("happy", mkBasicDef "happy" "feeling or showing pleasure or contentment"),
   ("big", mkBasicDef "big" "of considerable size or extent"),
   ("small", mkBasicDef "small" "of a size that is less than normal or usual"),
   ("fast", mkBasicDef "fast" "moving or capable of moving at high speed"),
   ("slow", mkBasicDef "slow" "moving or operating at a low speed"),
   ("good", mkBasicDef "good" "to be desired or approved of"),
   ("bad", mkBasicDef "bad" "of poor quality or a low standard"),
   ("new", mkBasicDef "new" "not existing before; made, introduced, or discovered recently"),
   ("old", mkBasicDef "old" "having lived for a long time; no longer young"),
   ("hot", mkBasicDef "hot" "having a high degree of heat or a high temperature")]

/-- The dictionary probe `basic_definitions.get(word.lower(), ...)` performs. -/
def basicDefLookup (w : String) : Option Json :=
  dictLookup (strLower w) basic_definitions

/-- `WordsAPI._get_basic_definition` (lines 288-307): the static-dictionary
fallback; unknown words get a fabricated single-definition record carrying
the word as passed. -/
def basicDefinition (w : String) : Json :=
  match basicDefLookup w with
  | some d => d
  | none => .obj [("word", .str w),
      ("results", .arr [.obj [("definition", .str ("A word meaning related to " ++ w))]])]

/-- `WordsAPI.get_word_definition` (lines 27-56): 30-day cache consulted
first; with no API key the static fallback is returned without any HTTP
call; otherwise fetch, cache on success, fall back to the static dictionary
on `RequestException`. -/
def words_get_word_definition (http : Oracle) (apiKey : Option String) (fs : FS WKey)
    (now : Nat) (w : String) : CallOut WKey Json :=
  match cache_get fs (wordKey w) now 30 with
  | some r => ⟨r, fs, []⟩
  | none =>
      match apiKey with
      | none => ⟨.ok (basicDefinition w), fs, []⟩
      | some _ =>
          match http (wordsReq w) with
          | .success wd => ⟨.ok wd, cache_put fs (wordKey w) wd now, [wordsReq w]⟩
          | .failure => ⟨.ok (basicDefinition w), fs, [wordsReq w]⟩

/-- The lesson dict assembled by `WordsAPI.create_vocabulary_lesson`
(lines 153-163). -/
def vocabLessonJson (w : String) (grade : Int) (wordData : Json) : Json :=
  .obj [
    ("title", .str ("Vocabulary: " ++ strTitle w)),
    ("subject", .str "vocabulary"),
    ("grade_level", .num grade),
    ("content_type", .str "wordsapi"),
    ("word", .str w),
    ("word_data", wordData),
    ("text_content", .str ("Learn the meaning, synonyms, and usage of the word '"
      ++ w ++ "'.")),
    ("estimated_time", .num 15),
    ("xp_value", .num 10)]

/-- `WordsAPI.create_vocabulary_lesson` (lines 146-165): `None` when the
definition is falsy, otherwise the lesson dict with fixed `estimated_time`
15 and `xp_value` 10. -/
def words_create_vocabulary_lesson (http : Oracle) (apiKey : Option String) (fs : FS WKey)
    (now : Nat) (w : String) (grade : Int) : CallOut WKey Json :=
  let wd := words_get_word_definition http apiKey fs now w
  match wd.res with
  | .error e => ⟨.error e, wd.fs, wd.reqs⟩
  | .ok wordData =>
      if pyTruthy wordData then
        ⟨.ok (vocabLessonJson w grade wordData), wd.fs, wd.reqs⟩
      else ⟨.ok .null, wd.fs, wd.reqs⟩

/-! ## Helper lemmas -/

theorem toNat_ofNat_of_valid {n : Nat} (h : n.isValidChar) : (Char.ofNat n).toNat = n := by
  unfold Char.ofNat
  rw [dif_pos h]
  rfl

theorem lowerChar_idem (c : Char) : lowerChar (lowerChar c) = lowerChar c := by
  unfold lowerChar
  split
  · case isTrue h =>
      have hv : (c.toNat + 32).isValidChar := Or.inl (by omega)
      rw [toNat_ofNat_of_valid hv, if_neg (by omega)]
  · case isFalse h =>
      rfl

theorem strLower_idem (s : String) : strLower (strLower s) = strLower s := by
  unfold strLower
  have h : lowerChar ∘ lowerChar = lowerChar := funext lowerChar_idem
  show String.mk ((s.data.map lowerChar).map lowerChar) = String.mk (s.data.map lowerChar)
  rw [List.map_map, h]

theorem fsLookup_fsWrite_self {K : Type} [DecidableEq K] (fs : FS K) (k : K) (f : CacheFile) :
    fsLookup (fsWrite fs k f) k = some f := by
  simp [fsWrite, fsLookup]

/-! ## Claim theorems -/

/-- Claim C5: for any cache key and JSON payload, a cache read performed
immediately after a cache write with the same key — the `json.dump` /
`json.load` pattern every client operation uses (for example
`KhanAcademyAPI.get_video_content`, `WordsAPI.get_word_definition`) —
returns the payload that was written, for every TTL that has not yet
expired. -/
theorem cache_put_get_roundtrip {K : Type} [DecidableEq K] (fs : FS K) (k : K)
    (payload : Json) (t t2 ttl : Nat) (h : cacheValid t2 t ttl = true) :
    cache_get (cache_put fs k payload t) k t2 ttl = some (.ok payload) := by
  unfold cache_get cache_put
  rw [fsLookup_fsWrite_self]
  simp [h, json_load]

theorem cache_put_get_roundtrip_witness :
    cacheValid 5 0 7 = true ∧
      cache_get (cache_put ([] : FS Nat) 1 (Json.str "x") 0) 1 5 7 =
        some (.ok (Json.str "x")) :=
  ⟨rfl, cache_put_get_roundtrip [] 1 (Json.str "x") 0 5 7 rfl⟩

/-- Claim C10: the word-definition cache key is case-insensitive: for every
word `w`, `get_word_definition w` and `get_word_definition (strLower w)`
compute the same cache file name `word_{w.lower()}.json`, the static
dictionary probe is keyed on the lowercased word, and within the 30-day TTL
a lookup in any letter case returns the payload cached under the lowercase
form. -/
theorem word_cache_case_insensitive :
    (∀ w : String, wordKey w = wordKey (strLower w)) ∧
    (∀ w : String, basicDefLookup w = basicDefLookup (strLower w)) ∧
    (∀ (http : Oracle) (ak : Option String) (fs : FS WKey) (now : Nat) (w : String)
        (f : CacheFile) (j : Json),
        fsLookup fs (wordKey w) = some f → cacheValid now f.mtime 30 = true →
        f.content = some j →
        (words_get_word_definition http ak fs now w).res = .ok j ∧
        (words_get_word_definition http ak fs now (strLower w)).res = .ok j) := by
  have hk : ∀ w : String, wordKey w = wordKey (strLower w) := by
    intro w
    unfold wordKey
    rw [strLower_idem]
  refine ⟨hk, ?_, ?_⟩
  · intro w
    unfold basicDefLookup
    rw [strLower_idem]
  · intro http ak fs now w f j hf hv hc
    have h2 : fsLookup fs (wordKey (strLower w)) = some f := by
      rw [← hk]
      exact hf
    constructor
    · simp only [words_get_word_definition, cache_get, hf, hv, if_true, json_load, hc]
    · simp only [words_get_word_definition, cache_get, h2, hv, if_true, json_load, hc]

theorem word_cache_case_insensitive_witness :
    fsLookup [(wordKey "Hot", (⟨some (Json.str "p"), 0⟩ : CacheFile))] (wordKey "Hot")
        = some ⟨some (Json.str "p"), 0⟩ ∧
    cacheValid 0 0 30 = true ∧
    ((words_get_word_definition (fun _ => Fetch.failure) none
        [(wordKey "Hot", ⟨some (Json.str "p"), 0⟩)] 0 "Hot").res = .ok (Json.str "p") ∧
      (words_get_word_definition (fun _ => Fetch.failure) none
        [(wordKey "Hot", ⟨some (Json.str "p"), 0⟩)] 0 (strLower "Hot")).res
          = .ok (Json.str "p")) :=
  ⟨rfl, rfl, word_cache_case_insensitive.2.2 (fun _ => Fetch.failure) none
    [(wordKey "Hot", ⟨some (Json.str "p"), 0⟩)] 0 "Hot" ⟨some (Json.str "p"), 0⟩
    (Json.str "p") rfl rfl rfl⟩

/-- Claim C7: a `WordsAPI` client constructed with no API key issues no
outbound network call on any word-definition lookup, and on a cache miss
falls back to the embedded static dictionary. -/
theorem words_offline_no_network :
    ∀ (http : Oracle) (fs : FS WKey) (now : Nat) (w : String),
      (words_get_word_definition http none fs now w).reqs = [] ∧
      (cache_get fs (wordKey w) now 30 = none →
        (words_get_word_definition http none fs now w).res = .ok (basicDefinition w)) := by
  intro http fs now w
  unfold words_get_word_definition
  cases h : cache_get fs (wordKey w) now 30 with
  | some r => simp [h]
  | none => simp [h]

theorem words_offline_no_network_witness :
    cache_get ([] : FS WKey) (wordKey "zebra") 0 30 = none ∧
    ((words_get_word_definition (fun _ => Fetch.failure) none [] 0 "zebra").reqs = [] ∧
      (words_get_word_definition (fun _ => Fetch.failure) none [] 0 "zebra").res
        = .ok (basicDefinition "zebra")) :=
  ⟨rfl, (words_offline_no_network (fun _ => Fetch.failure) [] 0 "zebra").1,
    (words_offline_no_network (fun _ => Fetch.failure) [] 0 "zebra").2 rfl⟩

theorem basic_definitions_shape (k : String) (d : Json)
    (h : dictLookup k basic_definitions = some d) :
    (∃ rs, jget d "results" = some (Json.arr rs) ∧ rs ≠ [] ∧
      (jget d "word").isSome = true) ∧ pyTruthy d = true := by
  simp only [basic_definitions, dictLookup, mkBasicDef] at h
  repeat' split at h
  all_goals first
    | (cases h; exact ⟨⟨_, rfl, by simp, rfl⟩, rfl⟩)
    | cases h

theorem basicDefinition_shape (w : String) :
    (∃ rs, jget (basicDefinition w) "results" = some (Json.arr rs) ∧ rs ≠ [] ∧
      (jget (basicDefinition w) "word").isSome = true) ∧
    pyTruthy (basicDefinition w) = true := by
  unfold basicDefinition
  cases h : basicDefLookup w with
  | some d => exact basic_definitions_shape (strLower w) d h
  | none => exact ⟨⟨_, rfl, by simp, rfl⟩, rfl⟩

/-- Claim C9 (implicit): `WordsAPI.get_word_definition` never yields an
absent result: the static fallback always carries a `word` field and a
non-empty `results` list, and on a cache miss with no API key — or with a
key but a transport failure — the lookup returns exactly that fabricated
record, so `create_vocabulary_lesson` returns a lesson dict, never `None`. -/
theorem words_never_absent :
    (∀ w : String, ∃ rs, jget (basicDefinition w) "results" = some (Json.arr rs) ∧
      rs ≠ [] ∧ (jget (basicDefinition w) "word").isSome = true) ∧
    (∀ (http : Oracle) (ak : Option String) (fs : FS WKey) (now : Nat) (w : String)
        (g : Int),
        fsLookup fs (wordKey w) = none →
        (ak = none ∨ http (wordsReq w) = .failure) →
        (words_get_word_definition http ak fs now w).res = .ok (basicDefinition w) ∧
        ∃ l, (words_create_vocabulary_lesson http ak fs now w g).res = .ok l ∧
          l ≠ Json.null) := by
  constructor
  · intro w
    exact (basicDefinition_shape w).1
  · intro http ak fs now w g hmiss hoff
    have hres : (words_get_word_definition http ak fs now w).res = .ok (basicDefinition w) := by
      cases ak with
      | none =>
          simp only [words_get_word_definition, cache_get, hmiss]
      | some k =>
          have hfail : http (wordsReq w) = .failure := by
            cases hoff with
            | inl h => exact absurd h (by simp)
            | inr h => exact h
          simp only [words_get_word_definition, cache_get, hmiss, hfail]
    refine ⟨hres, ?_⟩
    have htr := (basicDefinition_shape w).2
    refine ⟨vocabLessonJson w g (basicDefinition w), ?_, by simp [vocabLessonJson]⟩
    simp only [words_create_vocabulary_lesson, hres, htr, if_true]

theorem words_never_absent_witness :
    fsLookup ([] : FS WKey) (wordKey "Serendipity") = none ∧
    ((fun (_ : Request) => Fetch.failure) (wordsReq "Serendipity") = Fetch.failure) ∧
    ((words_get_word_definition (fun _ => Fetch.failure) (some "k") [] 0 "Serendipity").res
        = .ok (basicDefinition "Serendipity") ∧
      ∃ l, (words_create_vocabulary_lesson (fun _ => Fetch.failure) (some "k") [] 0
        "Serendipity" 4).res = .ok l ∧ l ≠ Json.null) :=
  ⟨rfl, rfl, words_never_absent.2 (fun _ => Fetch.failure) (some "k") [] 0 "Serendipity" 4
    rfl (Or.inr rfl)⟩

/-- Claim C4: a cache entry is valid exactly while `now - mtime < TTL`
(the source's `timedelta.days < ttlDays` test is equivalent to the
second-level bound), and a cache entry at least TTL old is treated as
absent: `CK12API.get_content_details` (30-day TTL) and
`KhanAcademyAPI.get_video_content` (7-day TTL) then issue exactly one
re-fetch and return the fetched outcome, not the cached payload. -/
theorem cache_ttl_expiry :
    (∀ now mtime ttl : Nat, cacheValid now mtime ttl = true ↔ now - mtime < ttl * 86400) ∧
    (∀ (http : Oracle) (fs : FS CKKey) (now : Nat) (contentId : String) (f : CacheFile),
        fsLookup fs (CKKey.content contentId) = some f →
        30 * 86400 ≤ now - f.mtime →
        (ck12_get_content_details http fs now contentId).reqs = [ck12ContentReq contentId] ∧
        (ck12_get_content_details http fs now contentId).res =
          (match http (ck12ContentReq contentId) with
           | .success b => .ok b
           | .failure => .ok .null)) ∧
    (∀ (http : Oracle) (fs : FS KhanKey) (now : Nat) (videoId : String) (f : CacheFile),
        fsLookup fs (KhanKey.video videoId) = some f →
        7 * 86400 ≤ now - f.mtime →
        (khan_get_video_content http fs now videoId).reqs = [khanVideoReq videoId] ∧
        (khan_get_video_content http fs now videoId).res =
          (match http (khanVideoReq videoId) with
           | .success b => .ok b
           | .failure => .ok .null)) := by
  have hiff : ∀ now mtime ttl : Nat,
      cacheValid now mtime ttl = true ↔ now - mtime < ttl * 86400 := by
    intro now mtime ttl
    unfold cacheValid
    rw [decide_eq_true_iff]
    exact Nat.div_lt_iff_lt_mul (by omega)
  refine ⟨hiff, ?_, ?_⟩
  · intro http fs now contentId f hf hstale
    have hcv : cacheValid now f.mtime 30 = false := by
      cases hb : cacheValid now f.mtime 30 with
      | false => rfl
      | true => exact absurd ((hiff now f.mtime 30).mp hb) (by omega)
    simp only [ck12_get_content_details, cache_get, hf, hcv, if_false]
    cases hh : http (ck12ContentReq contentId) <;> simp [hh]
  · intro http fs now videoId f hf hstale
    have hcv : cacheValid now f.mtime 7 = false := by
      cases hb : cacheValid now f.mtime 7 with
      | false => rfl
      | true => exact absurd ((hiff now f.mtime 7).mp hb) (by omega)
    simp only [khan_get_video_content, cache_get, hf, hcv, if_false]
    cases hh : http (khanVideoReq videoId) <;> simp [hh]

theorem cache_ttl_expiry_witness :
    fsLookup [(CKKey.content "c1", (⟨some (Json.str "v"), 0⟩ : CacheFile))]
        (CKKey.content "c1") = some ⟨some (Json.str "v"), 0⟩ ∧
    30 * 86400 ≤ 2592000 - 0 ∧
    (ck12_get_content_details (fun _ => Fetch.failure)
        [(CKKey.content "c1", ⟨some (Json.str "v"), 0⟩)] 2592000 "c1").reqs
      = [ck12ContentReq "c1"] ∧
    (ck12_get_content_details (fun _ => Fetch.failure)
        [(CKKey.content "c1", ⟨some (Json.str "v"), 0⟩)] 2592000 "c1").res = .ok .null ∧
    fsLookup [(KhanKey.video "v1", (⟨some (Json.str "v"), 0⟩ : CacheFile))]
        (KhanKey.video "v1") = some ⟨some (Json.str "v"), 0⟩ ∧
    7 * 86400 ≤ 604800 - 0 ∧
    (khan_get_video_content (fun _ => Fetch.failure)
        [(KhanKey.video "v1", ⟨some (Json.str "v"), 0⟩)] 604800 "v1").reqs
      = [khanVideoReq "v1"] ∧
    (khan_get_video_content (fun _ => Fetch.failure)
        [(KhanKey.video "v1", ⟨some (Json.str "v"), 0⟩)] 604800 "v1").res = .ok .null := by
  refine ⟨rfl, by decide, ?_, ?_, rfl, by decide, ?_, ?_⟩
  · exact (cache_ttl_expiry.2.1 (fun _ => Fetch.failure)
      [(CKKey.content "c1", ⟨some (Json.str "v"), 0⟩)] 2592000 "c1"
      ⟨some (Json.str "v"), 0⟩ rfl (by decide)).1
  · exact (cache_ttl_expiry.2.1 (fun _ => Fetch.failure)
      [(CKKey.content "c1", ⟨some (Json.str "v"), 0⟩)] 2592000 "c1"
      ⟨some (Json.str "v"), 0⟩ rfl (by decide)).2
  · exact (cache_ttl_expiry.2.2 (fun _ => Fetch.failure)
      [(KhanKey.video "v1", ⟨some (Json.str "v"), 0⟩)] 604800 "v1"
      ⟨some (Json.str "v"), 0⟩ rfl (by decide)).1
  · exact (cache_ttl_expiry.2.2 (fun _ => Fetch.failure)
      [(KhanKey.video "v1", ⟨some (Json.str "v"), 0⟩)] 604800 "v1"
      ⟨some (Json.str "v"), 0⟩ rfl (by decide)).2

/-- Claim C3: whenever a cache file for `NASAAPI.get_space_weather` exists,
the method raises `AttributeError` — `cache_age.hours` is evaluated on a
`datetime.timedelta`, which has no `hours` attribute, and the access sits
outside the `try` block — contradicting the contract that no provider
operation raises past the client boundary. -/
theorem nasa_space_weather_cached_raises :
    ∀ (http : Oracle) (ak : Option String) (fs : FS NasaKey) (now : Nat) (f : CacheFile),
      fsLookup fs NasaKey.spaceWeather = some f →
      nasa_get_space_weather http ak fs now = ⟨.error .attributeError, fs, []⟩ := by
  intro http ak fs now f h
  simp only [nasa_get_space_weather, h]

theorem nasa_space_weather_cached_raises_witness :
    fsLookup [(NasaKey.spaceWeather, (⟨some (Json.arr []), 0⟩ : CacheFile))]
        NasaKey.spaceWeather = some ⟨some (Json.arr []), 0⟩ ∧
    nasa_get_space_weather (fun _ => Fetch.success (Json.arr [])) none
        [(NasaKey.spaceWeather, ⟨some (Json.arr []), 0⟩)] 0
      = ⟨.error .attributeError, [(NasaKey.spaceWeather, ⟨some (Json.arr []), 0⟩)], []⟩ :=
  ⟨rfl, nasa_space_weather_cached_raises (fun _ => Fetch.success (Json.arr [])) none
    [(NasaKey.spaceWeather, ⟨some (Json.arr []), 0⟩)] 0 ⟨some (Json.arr []), 0⟩ rfl⟩

/-- Claim C6: a cache file that exists, is fresh, but holds malformed JSON
makes the operation raise `json.JSONDecodeError` (the cache read sits
outside the `try` block) instead of being treated as a miss: shown for
`KhanAcademyAPI.get_video_content` and `CK12API.search_content`; no
re-fetch happens. -/
theorem malformed_cache_raises :
    (∀ (http : Oracle) (fs : FS KhanKey) (now : Nat) (videoId : String) (f : CacheFile),
        fsLookup fs (KhanKey.video videoId) = some f → f.content = none →
        cacheValid now f.mtime 7 = true →
        khan_get_video_content http fs now videoId = ⟨.error .jsonDecodeError, fs, []⟩) ∧
    (∀ (http : Oracle) (fs : FS CKKey) (now : Nat) (query : String)
        (subject : Option String) (grade : Option Int) (limit : Int) (f : CacheFile),
        fsLookup fs (ck12SearchKey query subject grade) = some f → f.content = none →
        cacheValid now f.mtime 7 = true →
        ck12_search_content http fs now query subject grade limit
          = ⟨.error .jsonDecodeError, fs, []⟩) := by
  constructor
  · intro http fs now videoId f hf hc hv
    simp only [khan_get_video_content, cache_get, hf, hv, if_true, json_load, hc]
  · intro http fs now query subject grade limit f hf hc hv
    simp only [ck12_search_content, cache_get, hf, hv, if_true, json_load, hc]

theorem malformed_cache_raises_witness :
    fsLookup [(KhanKey.video "v1", (⟨none, 0⟩ : CacheFile))] (KhanKey.video "v1")
        = some ⟨none, 0⟩ ∧
    (⟨none, 0⟩ : CacheFile).content = none ∧
    cacheValid 0 0 7 = true ∧
    khan_get_video_content (fun _ => Fetch.success (Json.arr []))
        [(KhanKey.video "v1", ⟨none, 0⟩)] 0 "v1"
      = ⟨.error .jsonDecodeError, [(KhanKey.video "v1", ⟨none, 0⟩)], []⟩ :=
  ⟨rfl, rfl, rfl, malformed_cache_raises.1 (fun _ => Fetch.success (Json.arr []))
    [(KhanKey.video "v1", ⟨none, 0⟩)] 0 "v1" ⟨none, 0⟩ rfl rfl rfl⟩

def c2CacheFile : CacheFile := ⟨some (.arr [.obj [("id", .str "v1")]]), 0⟩

def c2FS : FS KhanKey := [(khanSearchKey "math" none, c2CacheFile)]

/-- Claim C2 counterexample: `KhanAcademyAPI.search_videos` does NOT consult
the cache before fetching — with a fresh, valid cached entry for the very
search being performed, the call still issues one outbound HTTP request. -/
theorem khan_search_videos_not_cache_first :
    fsLookup c2FS (khanSearchKey "math" none) = some c2CacheFile ∧
    cacheValid 0 c2CacheFile.mtime 7 = true ∧
    (khan_search_videos (fun _ => Fetch.success (Json.arr [])) c2FS 0 "math" none 10).reqs
      = [khanVideosReq "math" none 10] :=
  ⟨rfl, rfl, rfl⟩

/-- Claim C2 (amended): cache-before-fetch holds for the operations that
have a front cache — `KhanAcademyAPI.get_video_content` returns a valid
unexpired cached payload with zero outbound requests — but
`KhanAcademyAPI.search_videos` issues exactly one outbound request on every
call, for every topic and grade level, consulting its cache only as a
fallback after transport failure. -/
theorem khan_cache_first_amended :
    (∀ (http : Oracle) (fs : FS KhanKey) (now : Nat) (videoId : String)
        (f : CacheFile) (j : Json),
        fsLookup fs (KhanKey.video videoId) = some f →
        cacheValid now f.mtime 7 = true → f.content = some j →
        khan_get_video_content http fs now videoId = ⟨.ok j, fs, []⟩) ∧
    (∀ (http : Oracle) (fs : FS KhanKey) (now : Nat) (topic : String)
        (grade : Option Int) (limit : Int),
        (khan_search_videos http fs now topic grade limit).reqs
          = [khanVideosReq topic grade limit]) := by
  constructor
  · intro http fs now videoId f j hf hv hc
    simp only [khan_get_video_content, cache_get, hf, hv, if_true, json_load, hc]
  · intro http fs now topic grade limit
    simp only [khan_search_videos]
    cases hh : http (khanVideosReq topic grade limit) with
    | success videos => simp [hh]
    | failure =>
        cases hl : fsLookup fs (khanSearchKey topic grade) with
        | some f => simp [hh, hl]
        | none => simp [hh, hl]

theorem khan_cache_first_amended_witness :
    fsLookup [(KhanKey.video "v9", (⟨some (Json.str "d"), 0⟩ : CacheFile))]
        (KhanKey.video "v9") = some ⟨some (Json.str "d"), 0⟩ ∧
    cacheValid 3 0 7 = true ∧
    (⟨some (Json.str "d"), 0⟩ : CacheFile).content = some (Json.str "d") ∧
    khan_get_video_content (fun _ => Fetch.success (Json.arr []))
        [(KhanKey.video "v9", ⟨some (Json.str "d"), 0⟩)] 3 "v9"
      = ⟨.ok (Json.str "d"), [(KhanKey.video "v9", ⟨some (Json.str "d"), 0⟩)], []⟩ :=
  ⟨rfl, rfl, rfl, khan_cache_first_amended.1 (fun _ => Fetch.success (Json.arr []))
    [(KhanKey.video "v9", ⟨some (Json.str "d"), 0⟩)] 3 "v9" ⟨some (Json.str "d"), 0⟩
    (Json.str "d") rfl rfl rfl⟩

/-- Claim C1: `CK12API.search_content("fractions", subject="math",
grade_level=4)` with an empty cache issues exactly one outbound request
whose parameter set carries the query, subject and grade level; on a 200
response whose `content` list has two items, the returned normalized list
has length 2; and a second identical call within the 7-day TTL issues zero
outbound requests and returns the normalized projection of the cached
payload. -/
theorem ck12_search_scenario (i1 i2 : Json) (http : Oracle) (now now2 : Nat)
    (hresp : http (ck12SearchReq "fractions" (some "math") (some 4) 20)
      = .success (.obj [("content", .arr [i1, i2])]))
    (httl : cacheValid now2 now 7 = true) :
    (ck12SearchReq "fractions" (some "math") (some 4) 20).params
      = [("q", .str "fractions"), ("limit", .num 20), ("subject", .str "math"),
         ("grade_level", .num 4)] ∧
    (ck12_search_content http [] now "fractions" (some "math") (some 4) 20).reqs
      = [ck12SearchReq "fractions" (some "math") (some 4) 20] ∧
    (ck12_search_content http [] now "fractions" (some "math") (some 4) 20).res
      = .ok (ck12_process_content [i1, i2]) ∧
    (ck12_process_content [i1, i2]).length = 2 ∧
    (ck12_search_content http
        (ck12_search_content http [] now "fractions" (some "math") (some 4) 20).fs
        now2 "fractions" (some "math") (some 4) 20).reqs = [] ∧
    (ck12_search_content http
        (ck12_search_content http [] now "fractions" (some "math") (some 4) 20).fs
        now2 "fractions" (some "math") (some 4) 20).res
      = .ok (ck12_process_content [i1, i2]) := by
  have h1 : ck12_search_content http [] now "fractions" (some "math") (some 4) 20
      = ⟨.ok (ck12_process_content [i1, i2]),
         cache_put [] (ck12SearchKey "fractions" (some "math") (some 4))
           (.obj [("content", .arr [i1, i2])]) now,
         [ck12SearchReq "fractions" (some "math") (some 4) 20]⟩ := by
    simp only [ck12_search_content, cache_get, fsLookup, hresp]
    simp [pyGetD, jget, dictLookup, asArr]
  have h2 : ck12_search_content http
      (ck12_search_content http [] now "fractions" (some "math") (some 4) 20).fs
      now2 "fractions" (some "math") (some 4) 20
      = ⟨.ok (ck12_process_content [i1, i2]),
         cache_put [] (ck12SearchKey "fractions" (some "math") (some 4))
           (.obj [("content", .arr [i1, i2])]) now, []⟩ := by
    rw [h1]
    simp only [ck12_search_content, cache_get, cache_put]
    rw [fsLookup_fsWrite_self]
    simp only [httl, if_true, json_load]
    simp [pyGetD, jget, dictLookup, asArr]
  refine ⟨rfl, ?_, ?_, ?_, ?_, ?_⟩
  · rw [h1]
  · rw [h1]
  · simp [ck12_process_content]
  · rw [h2]
  · rw [h2]

def c1Item1 : Json := .obj [("id", .str "it1"), ("title", .str "Fractions intro")]

def c1Item2 : Json := .obj [("id", .str "it2"), ("title", .str "Fractions practice")]

def c1Oracle : Oracle :=
  fun _ => .success (.obj [("content", .arr [c1Item1, c1Item2])])

theorem ck12_search_scenario_witness :
    c1Oracle (ck12SearchReq "fractions" (some "math") (some 4) 20)
      = .success (.obj [("content", .arr [c1Item1, c1Item2])]) ∧
    cacheValid 86399 0 7 = true ∧
    ((ck12SearchReq "fractions" (some "math") (some 4) 20).params
        = [("q", .str "fractions"), ("limit", .num 20), ("subject", .str "math"),
           ("grade_level", .num 4)] ∧
      (ck12_search_content c1Oracle [] 0 "fractions" (some "math") (some 4) 20).reqs
        = [ck12SearchReq "fractions" (some "math") (some 4) 20] ∧
      (ck12_search_content c1Oracle [] 0 "fractions" (some "math") (some 4) 20).res
        = .ok (ck12_process_content [c1Item1, c1Item2]) ∧
      (ck12_process_content [c1Item1, c1Item2]).length = 2 ∧
      (ck12_search_content c1Oracle
          (ck12_search_content c1Oracle [] 0 "fractions" (some "math") (some 4) 20).fs
          86399 "fractions" (some "math") (some 4) 20).reqs = [] ∧
      (ck12_search_content c1Oracle
          (ck12_search_content c1Oracle [] 0 "fractions" (some "math") (some 4) 20).fs
          86399 "fractions" (some "math") (some 4) 20).res
        = .ok (ck12_process_content [c1Item1, c1Item2])) :=
  ⟨rfl, rfl, ck12_search_scenario c1Item1 c1Item2 c1Oracle 0 86399 rfl rfl⟩

def c8Oracle : Oracle := fun _ => .success (.obj [("docs", .arr [])])

/-- Claim C8 counterexample: `OpenLibraryAPI.create_reading_lesson` returns
`None` — not a lesson draft — when the book search returns no results. -/
theorem ol_reading_lesson_none_on_empty :
    (ol_create_reading_lesson c8Oracle [] 0 "The Hobbit" 6).res = .ok Json.null :=
  rfl

/-- Claim C8 (amended): `KhanAcademyAPI.create_lesson_from_khan` always
returns a draft whose `videos` are the first-3 slice of the provider
results, whose `exercises` are the first-5 slice, with fixed
`estimated_time` 30 and `xp_value` 15, and an empty exercises list when
the exercises fetch fails — but `OpenLibraryAPI.create_reading_lesson`
returns `None` when its book search comes back empty. -/
theorem khan_lesson_assembly (http : Oracle) (fs : FS KhanKey) (now : Nat)
    (subject : String) (grade : Option Int) (topic : String) (vb : Json)
    (hv : http (khanVideosReq subject grade 20) = .success vb) :
    (khan_create_lesson_from_khan http fs now subject grade topic).res
      = .ok (.obj [
          ("title", .str ("Khan Academy - " ++ subject ++ " - " ++ topic)),
          ("subject", .str subject),
          ("grade_level", jOptInt grade),
          ("content_type", .str "khan_academy"),
          ("videos", .arr ((khan_process_videos (asArr vb)).take 3)),
          ("exercises", .arr ((khan_get_exercises http subject grade).1.take 5)),
          ("estimated_time", .num 30),
          ("xp_value", .num 15)]) ∧
    (http (khanExercisesReq subject grade) = .failure →
      (khan_get_exercises http subject grade).1 = []) := by
  constructor
  · simp only [khan_create_lesson_from_khan, khan_get_subject_content,
      khan_search_videos, hv, pySlice]
  · intro hf
    simp [khan_get_exercises, hf]

def c8AOracle : Oracle := fun r =>
  if r.url = "https://www.khanacademy.org/api/v1/videos" then .success (.arr [])
  else .failure

theorem khan_lesson_assembly_witness :
    c8AOracle (khanVideosReq "math" none 20) = .success (.arr []) ∧
    ((khan_create_lesson_from_khan c8AOracle [] 0 "math" none "fractions").res
        = .ok (.obj [
            ("title", .str ("Khan Academy - " ++ "math" ++ " - " ++ "fractions")),
            ("subject", .str "math"),
            ("grade_level", jOptInt none),
            ("content_type", .str "khan_academy"),
            ("videos", .arr ((khan_process_videos (asArr (.arr []))).take 3)),
            ("exercises", .arr ((khan_get_exercises c8AOracle "math" none).1.take 5)),
            ("estimated_time", .num 30),
            ("xp_value", .num 15)]) ∧
      (c8AOracle (khanExercisesReq "math" none) = .failure →
        (khan_get_exercises c8AOracle "math" none).1 = [])) :=
  ⟨rfl, khan_lesson_assembly c8AOracle [] 0 "math" none "fractions" (.arr []) rfl⟩
